import Mathlib

/-!
Verification development for the DealerFlow Pro backend.

Shallow embedding of the subscription / feature-access model
(`src/models/subscription.py`, `src/main_complete.py`,
`src/routes/payments.py`) and of the website-scraping pipeline
(`src/services/scraping_service.py`).

Conventions of the embedding:
* `datetime` values are integers (an absolute tick count); `timedelta(days = d)`
  is `d * day` with `day = 86400` ticks.  `datetime.utcnow()` becomes an
  explicit `now` argument.
* Python values that may be of several runtime types (the feature dictionaries
  mix booleans, numbers, strings and lists) are modelled by `PyVal`, with
  Python truthiness as `PyVal.truthy`.
* Network and storage collaborators (`requests` fetches, `ImageService.save_image`,
  the database session) are oracle functions supplied as arguments; a Python
  exception raised by a collaborator is an `Except.error` carrying `str(e)`.
-/

/-- One tick per second; `timedelta(days = d)` is `d * day`. -/
def day : Int := 86400

/-- Python runtime values appearing in the plan-feature dictionaries. -/
inductive PyVal where
  | bool (b : Bool)
  | int (n : Int)
  | str (s : String)
  | list (xs : List String)
  deriving DecidableEq, Repr

/-- Python truthiness of a `PyVal`. -/
def PyVal.truthy : PyVal → Bool
  | .bool b => b
  | .int n => n != 0
  | .str s => s != ""
  | .list xs => !xs.isEmpty

/-- `class SubscriptionPlan(Enum)` from `src/models/subscription.py`. -/
inductive SubscriptionPlan where
  | trial
  | starter
  | professional
  | enterprise
  deriving DecidableEq, Repr

/-- `class SubscriptionStatus(Enum)` from `src/models/subscription.py`. -/
inductive SubscriptionStatus where
  | trial
  | active
  | past_due
  | cancelled
  | expired
  deriving DecidableEq, Repr

/-- One entry of the plan-feature table in `Subscription.get_plan_features`. -/
structure PlanFeatures where
  max_posts_per_month : Int
  max_images : Int
  platforms : List String
  automation : Bool
  analytics : Bool
  support : String
  price_monthly : Int
  price_yearly : Int
  deriving DecidableEq, Repr

/-- `Subscription` (`src/models/subscription.py`); the uuid/Helcim bookkeeping
fields not read by any modelled operation are omitted. -/
structure Subscription where
  user_id : Nat
  plan : SubscriptionPlan
  status : SubscriptionStatus
  amount : Int
  billing_cycle : String
  current_period_start : Int
  current_period_end : Int
  trial_end : Int
  updated_at : Int
  deriving DecidableEq, Repr

/-- `Subscription.get_plan_features`: the static plan table.  The Python
`features.get(self.plan, features[TRIAL])` default is unreachable because the
match below is total over the enum. -/
def get_plan_features : SubscriptionPlan → PlanFeatures
  | .trial =>
      { max_posts_per_month := 50, max_images := 100
        platforms := ["facebook", "instagram"]
        automation := false, analytics := false, support := "email"
        price_monthly := 0, price_yearly := 0 }
  | .starter =>
      { max_posts_per_month := 200, max_images := 500
        platforms := ["facebook", "instagram", "x"]
        automation := true, analytics := true, support := "email"
        price_monthly := 197, price_yearly := 1970 }
  | .professional =>
      { max_posts_per_month := 1000, max_images := 2000
        platforms := ["facebook", "instagram", "x", "tiktok", "reddit"]
        automation := true, analytics := true, support := "priority"
        price_monthly := 397, price_yearly := 3970 }
  | .enterprise =>
      { max_posts_per_month := -1, max_images := -1
        platforms := ["facebook", "instagram", "x", "tiktok", "reddit", "youtube"]
        automation := true, analytics := true, support := "phone"
        price_monthly := 597, price_yearly := 5970 }

/-- `features.get(key, False)` over the plan-feature dictionary: present keys
return their (heterogeneous) value, any other key returns `False`. -/
def PlanFeatures.lookup (f : PlanFeatures) (key : String) : PyVal :=
  if key = "max_posts_per_month" then .int f.max_posts_per_month
  else if key = "max_images" then .int f.max_images
  else if key = "platforms" then .list f.platforms
  else if key = "automation" then .bool f.automation
  else if key = "analytics" then .bool f.analytics
  else if key = "support" then .str f.support
  else if key = "price_monthly" then .int f.price_monthly
  else if key = "price_yearly" then .int f.price_yearly
  else .bool false

/-- `Subscription._calculate_period_end`: 365 days for a yearly cycle,
30 days otherwise, counted from `current_period_start`. -/
def calculate_period_end (s : Subscription) : Int :=
  if s.billing_cycle = "yearly" then s.current_period_start + 365 * day
  else s.current_period_start + 30 * day

/-- `Subscription.is_active`, with `datetime.utcnow()` passed as `now`. -/
def is_active (s : Subscription) (now : Int) : Bool :=
  if s.status = SubscriptionStatus.trial then now ≤ s.trial_end
  else s.status = SubscriptionStatus.active && now ≤ s.current_period_end

/-- `SubscriptionService`: the in-memory store, as the insertion-ordered list
of `self.subscriptions.values()`. -/
structure SubscriptionService where
  subscriptions : List Subscription
  deriving Repr

/-- `SubscriptionService.get_subscription_by_user`: first stored subscription
with the given `user_id`, else `None`. -/
def get_subscription_by_user (svc : SubscriptionService) (uid : Nat) :
    Option Subscription :=
  svc.subscriptions.find? (fun s => s.user_id = uid)

/-- Replace the first subscription of the given user (in-place mutation of the
object found by `get_subscription_by_user`). -/
def replace_subscription_by_user (uid : Nat) (s' : Subscription) :
    List Subscription → List Subscription
  | [] => []
  | s :: rest =>
      if s.user_id = uid then s' :: rest
      else s :: replace_subscription_by_user uid s' rest

/-- `SubscriptionService.upgrade_subscription`.  Note the source computes
`features = subscription.get_plan_features()` — the features of the plan the
subscription still holds — before assigning `subscription.plan = new_plan`,
so `amount` is priced from the pre-upgrade plan.  `_calculate_period_end` runs
after `billing_cycle` and `current_period_start` were reassigned.  Returns the
updated store plus the Python pair `(subscription, error)`. -/
def upgrade_subscription (svc : SubscriptionService) (uid : Nat)
    (new_plan : SubscriptionPlan) (billing_cycle : String) (now : Int) :
    SubscriptionService × Option Subscription × Option String :=
  match get_subscription_by_user svc uid with
  | none => (svc, none, some "No subscription found")
  | some sub =>
      let features := get_plan_features sub.plan
      let amount :=
        if billing_cycle = "yearly" then features.price_yearly
        else features.price_monthly
      let sub1 : Subscription :=
        { sub with
            plan := new_plan
            status := SubscriptionStatus.active
            amount := amount
            billing_cycle := billing_cycle
            current_period_start := now }
      let sub2 : Subscription :=
        { sub1 with current_period_end := calculate_period_end sub1, updated_at := now }
      (⟨replace_subscription_by_user uid sub2 svc.subscriptions⟩, some sub2, none)

/-- `SubscriptionService.cancel_subscription`: sets status to `CANCELLED` and
touches `updated_at`; every other field is untouched. -/
def cancel_subscription (svc : SubscriptionService) (uid : Nat) (now : Int) :
    SubscriptionService × Option Subscription × Option String :=
  match get_subscription_by_user svc uid with
  | none => (svc, none, some "No subscription found")
  | some sub =>
      let sub' : Subscription :=
        { sub with status := SubscriptionStatus.cancelled, updated_at := now }
      (⟨replace_subscription_by_user uid sub' svc.subscriptions⟩, some sub', none)

/-- `SubscriptionService.check_feature_access` (`src/models/subscription.py`,
lines 300–307): a uniform `features.get(feature, False)` lookup. -/
def service_check_feature_access (svc : SubscriptionService) (uid : Nat)
    (feature : String) (now : Int) : PyVal :=
  match get_subscription_by_user svc uid with
  | none => .bool false
  | some sub =>
      if !is_active sub now then .bool false
      else (get_plan_features sub.plan).lookup feature

/-- The `feature_mapping` dictionary built in `check_feature_access`
(`src/main_complete.py`, lines 57–66), looked up with default `False`.
`website_scraping` maps to the platform list itself, `bulk_generation` and
`dms_integration` to the literal `True`. -/
def feature_mapping (features : PlanFeatures) (feature : String) : PyVal :=
  if feature = "website_scraping" then .list features.platforms
  else if feature = "bulk_generation" then .bool true
  else if feature = "automation" then .bool features.automation
  else if feature = "analytics" then .bool features.analytics
  else if feature = "youtube" then .bool (features.platforms.contains "youtube")
  else if feature = "dms_integration" then .bool true
  else if feature = "unlimited_posts" then .bool (features.max_posts_per_month = -1)
  else if feature = "unlimited_images" then .bool (features.max_images = -1)
  else .bool false

/-- `check_feature_access(user, feature)` from `src/main_complete.py`
(lines 45–68); the user argument is `none` when no user object is present. -/
def main_check_feature_access (svc : SubscriptionService) (user : Option Nat)
    (feature : String) (now : Int) : PyVal :=
  match user with
  | none => .bool false
  | some uid =>
      match get_subscription_by_user svc uid with
      | none => .bool false
      | some sub =>
          if !is_active sub now then .bool false
          else feature_mapping (get_plan_features sub.plan) feature

/-- The `has_access` value returned by the route
`GET /feature-access/<feature>` (`src/routes/payments.py`, lines 430–448):
it forwards to `subscription_service.check_feature_access`. -/
def route_feature_access (svc : SubscriptionService) (uid : Nat)
    (feature : String) (now : Int) : PyVal :=
  service_check_feature_access svc uid feature now

/-! ### Scraping pipeline (`src/services/scraping_service.py`) -/

/-- Does `pat` occur verbatim at the head of `hay`?  (Helper for the Python
`in` substring tests.) -/
def sub_at_head : List Char → List Char → Bool
  | [], _ => true
  | _ :: _, [] => false
  | p :: ps, h :: hs => p = h && sub_at_head ps hs

/-- Does `pat` occur verbatim anywhere in `hay`? -/
def has_sub_list (pat : List Char) : List Char → Bool
  | [] => sub_at_head pat []
  | h :: hs => sub_at_head pat (h :: hs) || has_sub_list pat hs

/-- Python `pat in hay` on strings. -/
def str_has_sub (hay pat : String) : Bool :=
  has_sub_list pat.toList hay.toList

/-- The ordered platform-signature table of `detect_website_platform`. -/
def platform_signatures : List (String × List String) :=
  [("autotrader", ["autotrader", "at-inventory"]),
   ("cars.com", ["cars.com", "cars-inventory"]),
   ("dealerfire", ["dealerfire", "df-inventory"]),
   ("dealersocket", ["dealersocket", "ds-inventory"]),
   ("autorevolution", ["autorevolution", "ar-inventory"]),
   ("cobalt", ["cobalt", "cobalt-inventory"]),
   ("dealer.com", ["dealer.com", "ddc-inventory"]),
   ("wordpress", ["wp-content", "wordpress"]),
   ("custom", [])]

/-- `ScrapingService.detect_website_platform`: fetch the page (the `http`
oracle; `Except.error` covers both a network failure and a non-2xx
`raise_for_status`), lower-case the body, return the first signature that
matches, `custom` when none does, and `unknown` when the fetch raised. -/
def detect_website_platform (http : String → Except String String)
    (url : String) : String :=
  match http url with
  | .error _ => "unknown"
  | .ok body =>
      let content := body.toLower
      match platform_signatures.find?
          (fun pi => pi.2.any (fun ind => str_has_sub content ind)) with
      | some pi => pi.1
      | none => "custom"

/-- An `<img>` tag as read by `_extract_vehicle_data`: the `src`, `data-src`
and `data-lazy` attributes plus the `alt` text (`img.get('alt', '')`). -/
structure ImgTag where
  src : Option String
  data_src : Option String
  data_lazy : Option String
  alt : String
  deriving DecidableEq, Repr

/-- A vehicle-listing DOM element: its `<img>` tags, its flattened
`get_text()` content, and the `href` values of its anchors in document
order. -/
structure Element where
  imgs : List ImgTag
  text : String
  anchors : List String
  deriving DecidableEq, Repr

/-- A parsed inventory page: `select` is BeautifulSoup's `soup.select`,
mapping a CSS selector to the matched elements. -/
structure InventoryPage where
  select : String → List Element

/-- The `exclude_patterns` list of `_is_vehicle_image`. -/
def exclude_patterns : List String :=
  ["logo", "icon", "banner", "header", "footer",
   "nav", "menu", "button", "arrow", "star",
   "social", "facebook", "twitter", "instagram"]

/-- The `vehicle_patterns` list of `_is_vehicle_image`. -/
def vehicle_patterns : List String :=
  ["vehicle", "car", "auto", "truck", "suv",
   "sedan", "coupe", "hatchback", "wagon"]

/-- `ScrapingService._is_vehicle_image`: reject when an exclude pattern occurs
in the lower-cased src or alt text; otherwise accept (the vehicle-keyword scan
and the default both answer `True`). -/
def is_vehicle_image (src alt_text : String) : Bool :=
  let src_lower := src.toLower
  let alt_lower := alt_text.toLower
  if exclude_patterns.any
      (fun p => str_has_sub src_lower p || str_has_sub alt_lower p) then false
  else if vehicle_patterns.any
      (fun p => str_has_sub src_lower p || str_has_sub alt_lower p) then true
  else true

/-- Python `\w` (with `re.UNICODE` restricted to ASCII inputs): letters,
digits or underscore. -/
def is_word_char (c : Char) : Bool :=
  c.isAlphanum || c = '_'

/-- Leftmost match of the year regex `\b(19|20)\d{2}\b` over a character
list; `prev` is the character just before the current position (`none` at the
start of the text). -/
def find_year_aux : Option Char → List Char → Option String
  | prev, c0 :: c1 :: c2 :: c3 :: rest =>
      if (prev.all fun p => !is_word_char p) &&
          ((c0 = '1' && c1 = '9') || (c0 = '2' && c1 = '0')) &&
          c2.isDigit && c3.isDigit &&
          rest.head?.all (fun n => !is_word_char n) then
        some (String.mk [c0, c1, c2, c3])
      else find_year_aux (some c0) (c1 :: c2 :: c3 :: rest)
  | _, _ => none

/-- `re.search(r'\b(19|20)\d{2}\b', text)` as used for the year field. -/
def find_year (text : String) : Option String :=
  find_year_aux none text.toList

/-- The fields of `vehicle_data` a claim depends on; the `price`, `mileage`,
`make`, `model` and `stock_number` extractions are independent side fields
that never influence the acceptance gate. -/
structure VehicleData where
  images : List String
  year : Option String
  detail_url : Option String
  deriving DecidableEq, Repr

/-- `ScrapingService._extract_vehicle_data` (the claim-relevant fields):
collect the absolute URLs of `<img>` tags that pass `_is_vehicle_image`
(lazy-load fallback `src or data-src or data-lazy`), find the year token, and
emit the listing only if `vehicle_data['year']` is truthy and
`vehicle_data['images']` is non-empty; otherwise return `None` with no error
record.  `join` is `urllib.parse.urljoin`. -/
def extract_vehicle_data (join : String → String → String)
    (element : Element) (base_url : String) : Option VehicleData :=
  let images := element.imgs.filterMap fun img =>
    match img.src.orElse (fun _ => img.data_src.orElse fun _ => img.data_lazy) with
    | none => none
    | some src =>
        if is_vehicle_image src img.alt then some (join base_url src) else none
  let year := find_year element.text
  let detail_url := element.anchors.head?.map (join base_url)
  if (match year with | none => false | some y => y != "") && !images.isEmpty then
    some { images := images, year := year, detail_url := detail_url }
  else
    none

/-- The ordered `vehicle_selectors` list of `scrape_vehicle_listings`. -/
def vehicle_selectors : List String :=
  [".vehicle-item", ".car-item", ".inventory-item", ".vehicle-card",
   ".listing-item", "[data-vehicle]", ".vehicle"]

/-- The selector loop of `scrape_vehicle_listings`: the elements of the first
selector in the list that matches anything; selectors are never combined. -/
def select_elements (page : InventoryPage) : List String → List Element
  | [] => []
  | sel :: rest =>
      if (page.select sel).isEmpty then select_elements page rest
      else page.select sel

/-- `ScrapingService.scrape_vehicle_listings` on an already-fetched page:
pick the elements of the first matching selector and keep the extractions
that pass the acceptance gate (each element's `try` swallows any failure, so
an element contributes either one listing or nothing). -/
def scrape_vehicle_listings_parsed (join : String → String → String)
    (page : InventoryPage) (inventory_url : String) : List VehicleData :=
  (select_elements page vehicle_selectors).filterMap
    (fun element => extract_vehicle_data join element inventory_url)

/-- `ScrapingService.scrape_vehicle_listings` including the fetch: a failed
fetch is caught and yields the empty listing list. -/
def scrape_vehicle_listings (join : String → String → String)
    (http_page : String → Except String InventoryPage)
    (inventory_url : String) : List VehicleData :=
  match http_page inventory_url with
  | .error _ => []
  | .ok page => scrape_vehicle_listings_parsed join page inventory_url

/-- The persisted image row as far as `_save_scraped_vehicle_images` touches
it: `ImageService.save_image` creates it (`is_primary` defaults to `False` in
`src/models/image.py`), then the scraper overrides `source_url` and, for the
image at index 0 only, sets `is_primary = True`. -/
structure ImageRecord where
  source_url : String
  is_primary : Bool
  deriving DecidableEq, Repr

/-- Collaborators of `_save_scraped_vehicle_images`: the image download and
`ImageService.save_image`.  `save_image` returns Python's
`(image_record, message)` pair — `none` for a rejected image — and an
`Except.error` models an exception raised inside the call. -/
structure IngestEnv where
  http : String → Except String String
  save_image : String → Except String (Option ImageRecord × String)

/-- The `for i, image_url in enumerate(vehicle_data['images'][:5])` loop body
of `_save_scraped_vehicle_images`, at current index `i`: download, save,
override `source_url`, set the primary flag only when `i == 0`, and on any
failure record the error string and continue with the next image.  Returns
`(saved_count, errors, committed records in order)`. -/
def save_images_loop (env : IngestEnv) : Nat → List String →
    Nat × List String × List ImageRecord
  | _, [] => (0, [], [])
  | i, image_url :: rest =>
      let step : Except String (Option ImageRecord × String) :=
        match env.http image_url with
        | .error e => .error e
        | .ok content => env.save_image content
      let tail := save_images_loop env (i + 1) rest
      match step with
      | .error e =>
          (tail.1,
           ("Image " ++ toString (i + 1) ++ " from " ++ image_url ++ ": " ++ e)
             :: tail.2.1,
           tail.2.2)
      | .ok (none, save_message) =>
          (tail.1,
           ("Image " ++ toString (i + 1) ++ ": " ++ save_message) :: tail.2.1,
           tail.2.2)
      | .ok (some rec, _) =>
          let rec' : ImageRecord :=
            { rec with
                source_url := image_url
                is_primary := if i = 0 then true else rec.is_primary }
          (tail.1 + 1, tail.2.1, rec' :: tail.2.2)

/-- `ScrapingService._save_scraped_vehicle_images`: at most 5 image URLs are
processed, in extracted order, starting the enumeration at index 0. -/
def save_scraped_vehicle_images (env : IngestEnv) (images : List String) :
    Nat × List String × List ImageRecord :=
  save_images_loop env 0 (images.take 5)

/-- The methods `scrape_dealership_website` dispatches to.  Each is a Python
method call and may therefore raise; `Except.error` carries `str(e)`. -/
structure OrchestratorOps where
  detect_website_platform : String → Except String String
  find_inventory_pages : String → Except String (List String)
  scrape_vehicle_listings : String → Except String (List VehicleData)
  save_vehicle_images : VehicleData → Except String (Nat × List String)

/-- The per-vehicle loop of `scrape_dealership_website`: each vehicle's
`try` block accumulates `(vehicle_scraped, vehicle_errors)` on success and
converts an exception into one `Vehicle processing error` entry, always
continuing with the next vehicle. -/
def vehicle_loop (ops : OrchestratorOps) : List VehicleData →
    Nat × Nat × List String
  | [] => (0, 0, [])
  | v :: rest =>
      let cur :=
        match ops.save_vehicle_images v with
        | .ok (vehicle_scraped, vehicle_errors) =>
            (vehicle_scraped, vehicle_errors.length, vehicle_errors)
        | .error e => (0, 1, ["Vehicle processing error: " ++ e])
      let tail := vehicle_loop ops rest
      (cur.1 + tail.1, cur.2.1 + tail.2.1, cur.2.2 ++ tail.2.2)

/-- The per-page loop of `scrape_dealership_website`: each page's `try` block
scrapes the listings, caps them at `max_vehicles`, runs the vehicle loop, and
converts a page-level exception into one error string tagged with the page
URL before moving on to the next page. -/
def page_loop (ops : OrchestratorOps) (max_vehicles : Nat) :
    List String → Nat × Nat × List String
  | [] => (0, 0, [])
  | inventory_url :: rest =>
      let this_page : Except String (Nat × Nat × List String) :=
        match ops.scrape_vehicle_listings inventory_url with
        | .error e => .error e
        | .ok vehicles => .ok (vehicle_loop ops (vehicles.take max_vehicles))
      let cur :=
        match this_page with
        | .ok r => r
        | .error e =>
            (0, 1, ["Page scraping error for " ++ inventory_url ++ ": " ++ e])
      let tail := page_loop ops max_vehicles rest
      (cur.1 + tail.1, cur.2.1 + tail.2.1, cur.2.2 ++ tail.2.2)

/-- `ScrapingService.scrape_dealership_website`: detect the platform, find the
inventory pages (falling back to the site root when none are found), process
at most 5 pages, and always return the 4-tuple
`(scraped_count, error_count, errors, platform)`; any exception escaping the
inner handlers is caught at the top level and mapped to
`(0, 1, ['Website scraping error: ...'], 'unknown')`. -/
def scrape_dealership_website (ops : OrchestratorOps) (website_url : String)
    (max_vehicles : Nat) : Nat × Nat × List String × String :=
  match ops.detect_website_platform website_url with
  | .error e => (0, 1, ["Website scraping error: " ++ e], "unknown")
  | .ok platform =>
      match ops.find_inventory_pages website_url with
      | .error e => (0, 1, ["Website scraping error: " ++ e], "unknown")
      | .ok found =>
          let inventory_urls := if found.isEmpty then [website_url] else found
          let totals := page_loop ops max_vehicles (inventory_urls.take 5)
          (totals.1, totals.2.1, totals.2.2, platform)

/-! ### Concrete fixtures -/

/-- A tenant inside its 14-day trial: plan `trial`, status `trial`. -/
def subTrial : Subscription :=
  { user_id := 1, plan := SubscriptionPlan.trial, status := SubscriptionStatus.trial,
    amount := 0, billing_cycle := "monthly", current_period_start := 0,
    current_period_end := 30 * day, trial_end := 14 * day, updated_at := 0 }

/-- A tenant on an active monthly starter subscription. -/
def subStarter : Subscription :=
  { user_id := 2, plan := SubscriptionPlan.starter, status := SubscriptionStatus.active,
    amount := 197, billing_cycle := "monthly", current_period_start := 0,
    current_period_end := 30 * day, trial_end := 14 * day, updated_at := 0 }

/-- A tenant on an active monthly enterprise subscription. -/
def subEnterprise : Subscription :=
  { user_id := 3, plan := SubscriptionPlan.enterprise, status := SubscriptionStatus.active,
    amount := 597, billing_cycle := "monthly", current_period_start := 0,
    current_period_end := 30 * day, trial_end := 14 * day, updated_at := 0 }

/-- A tenant whose subscription was cancelled while the paid period still runs. -/
def subCancelled : Subscription :=
  { user_id := 4, plan := SubscriptionPlan.starter, status := SubscriptionStatus.cancelled,
    amount := 197, billing_cycle := "monthly", current_period_start := 0,
    current_period_end := 30 * day, trial_end := 14 * day, updated_at := 0 }

def svcTrial : SubscriptionService := ⟨[subTrial]⟩

def svcStarter : SubscriptionService := ⟨[subStarter]⟩

def svcEnterprise : SubscriptionService := ⟨[subEnterprise]⟩

def svcCancelled : SubscriptionService := ⟨[subCancelled]⟩

/-! ### Claims about the subscription / feature-access model -/

/-- C5: `is_active` returns `now <= trial_end` for a trial-status subscription
and `status == active && now <= current_period_end` otherwise, and it is
antitone in `now`: once false it stays false, so a trial subscription flips
from true to false exactly once as `now` crosses `trial_end`. -/
theorem c5_is_active_characterization :
    (∀ (s : Subscription) (now : Int),
        s.status = SubscriptionStatus.trial →
        (is_active s now = true ↔ now ≤ s.trial_end)) ∧
    (∀ (s : Subscription) (now : Int),
        s.status ≠ SubscriptionStatus.trial →
        (is_active s now = true ↔
          s.status = SubscriptionStatus.active ∧ now ≤ s.current_period_end)) ∧
    (∀ (s : Subscription) (n1 n2 : Int),
        n1 ≤ n2 → is_active s n2 = true → is_active s n1 = true) := by
  refine ⟨?_, ?_, ?_⟩
  · intro s now h
    simp [is_active, h]
  · intro s now h
    simp [is_active, h]
  · intro s n1 n2 h12 h2
    by_cases hs : s.status = SubscriptionStatus.trial
    · simp [is_active, hs] at h2 ⊢
      exact le_trans h12 h2
    · simp [is_active, hs] at h2 ⊢
      exact ⟨h2.1, le_trans h12 h2.2⟩

/-- Witness for C5 at the concrete trial subscription: active exactly at the
trial boundary, and still active earlier by antitonicity. -/
theorem c5_witness :
    is_active subTrial (14 * day) = true ∧ is_active subTrial (3 * day) = true := by
  have h := c5_is_active_characterization
  have hb : is_active subTrial (14 * day) = true :=
    (h.1 subTrial (14 * day) rfl).2 (by decide)
  exact ⟨hb, h.2.2 subTrial (3 * day) (14 * day) (by decide) hb⟩

/-- C6: both feature gates answer false unconditionally when the user is
absent, when the user has no subscription record, or when the subscription is
inactive — for every feature name, hence for every plan's capability flags. -/
theorem c6_inactive_always_denied :
    (∀ (svc : SubscriptionService) (feature : String) (now : Int),
        main_check_feature_access svc none feature now = .bool false) ∧
    (∀ (svc : SubscriptionService) (uid : Nat) (feature : String) (now : Int),
        get_subscription_by_user svc uid = none →
        main_check_feature_access svc (some uid) feature now = .bool false ∧
        service_check_feature_access svc uid feature now = .bool false) ∧
    (∀ (svc : SubscriptionService) (uid : Nat) (feature : String) (now : Int)
        (sub : Subscription),
        get_subscription_by_user svc uid = some sub →
        is_active sub now = false →
        main_check_feature_access svc (some uid) feature now = .bool false ∧
        service_check_feature_access svc uid feature now = .bool false) := by
  refine ⟨fun svc f now => rfl, ?_, ?_⟩
  · intro svc uid f now h
    constructor <;>
      simp [main_check_feature_access, service_check_feature_access, h]
  · intro svc uid f now sub h hia
    constructor <;>
      simp [main_check_feature_access, service_check_feature_access, h, hia]

/-- Witness for C6 at a cancelled subscription still inside its paid period:
both gates deny even a feature the starter plan grants. -/
theorem c6_witness :
    main_check_feature_access svcCancelled (some 4) "automation" (3 * day) = .bool false ∧
    service_check_feature_access svcCancelled 4 "automation" (3 * day) = .bool false :=
  c6_inactive_always_denied.2.2 svcCancelled 4 "automation" (3 * day) subCancelled
    rfl (by decide)

/-- C1 (code bug): the per-feature resolution table of
`main_check_feature_access` matches the claim for every feature except
`bulk_generation`, which the code hard-wires to `True` for every active
subscription — including a tenant on the trial plan, where the claim (and the
code's own comment, which restricts the feature to paid plans) requires
false.  The first conjunct evaluates the code at the failing input. -/
theorem c1_feature_table :
    (main_check_feature_access svcTrial (some 1) "bulk_generation" 0 = .bool true ∧
      subTrial.plan = SubscriptionPlan.trial ∧
      subTrial.status = SubscriptionStatus.trial ∧
      is_active subTrial 0 = true) ∧
    (∀ plan : SubscriptionPlan,
        (feature_mapping (get_plan_features plan) "website_scraping").truthy =
          !(get_plan_features plan).platforms.isEmpty ∧
        (feature_mapping (get_plan_features plan) "automation").truthy =
          (get_plan_features plan).automation ∧
        (feature_mapping (get_plan_features plan) "analytics").truthy =
          (get_plan_features plan).analytics ∧
        (feature_mapping (get_plan_features plan) "youtube").truthy =
          (get_plan_features plan).platforms.contains "youtube" ∧
        (feature_mapping (get_plan_features plan) "dms_integration").truthy = true ∧
        (feature_mapping (get_plan_features plan) "unlimited_posts").truthy =
          decide ((get_plan_features plan).max_posts_per_month = -1) ∧
        (feature_mapping (get_plan_features plan) "unlimited_images").truthy =
          decide ((get_plan_features plan).max_images = -1) ∧
        feature_mapping (get_plan_features plan) "no_such_feature" = .bool false) ∧
    (∀ (svc : SubscriptionService) (uid : Nat) (sub : Subscription)
        (feature : String) (now : Int),
        get_subscription_by_user svc uid = some sub →
        is_active sub now = true →
        main_check_feature_access svc (some uid) feature now =
          feature_mapping (get_plan_features sub.plan) feature) := by
  refine ⟨⟨by decide, rfl, rfl, by decide⟩, ?_, ?_⟩
  · intro plan
    exact ⟨rfl, rfl, rfl, rfl, rfl, rfl, rfl, rfl⟩
  · intro svc uid sub f now h hia
    simp [main_check_feature_access, h, hia]

/-- Witness for C1's quantified conjunct: an active enterprise tenant is
resolved through the feature-mapping table. -/
theorem c1_witness :
    main_check_feature_access svcEnterprise (some 3) "youtube" 0 =
      feature_mapping (get_plan_features subEnterprise.plan) "youtube" :=
  c1_feature_table.2.2 svcEnterprise 3 subEnterprise "youtube" 0 rfl (by decide)

/-- C9: `cancel_subscription` flips the status to `cancelled` and returns no
error; plan, amount, trial end and both period bounds are untouched, and the
cancelled subscription is inactive at every evaluation time — even before
`current_period_end`. -/
theorem c9_cancel_frame :
    ∀ (svc : SubscriptionService) (uid : Nat) (now : Int) (sub : Subscription),
      get_subscription_by_user svc uid = some sub →
      (cancel_subscription svc uid now).2 =
        (some { sub with status := SubscriptionStatus.cancelled, updated_at := now },
         none) ∧
      ∀ t : Int,
        is_active { sub with status := SubscriptionStatus.cancelled, updated_at := now } t
          = false := by
  intro svc uid now sub h
  refine ⟨?_, ?_⟩
  · simp [cancel_subscription, h]
  · intro t
    simp [is_active]

/-- Witness for C9: cancelling the starter tenant at time 0 yields the
cancelled record, and it is inactive at day 3, well before the period end. -/
theorem c9_witness :
    (cancel_subscription svcStarter 2 0).2 =
      (some { subStarter with status := SubscriptionStatus.cancelled, updated_at := 0 },
       none) ∧
    is_active { subStarter with status := SubscriptionStatus.cancelled, updated_at := 0 }
      (3 * day) = false := by
  have h := c9_cancel_frame svcStarter 2 0 subStarter rfl
  exact ⟨h.1, h.2 (3 * day)⟩

/-- C3 (code bug): upgrading the starter tenant to enterprise/yearly does
reset the period window (`current_period_start = now`,
`current_period_end = now + 365d`) and set status active, but the amount is
1970 — the *starter* plan's yearly price, because the source reads
`subscription.get_plan_features()` before assigning the new plan — instead of
the enterprise yearly price 5970 the claim requires. -/
theorem c3_upgrade_prices_old_plan :
    (upgrade_subscription svcStarter 2 SubscriptionPlan.enterprise "yearly"
        (100 * day)).2 =
      (some { user_id := 2, plan := SubscriptionPlan.enterprise,
              status := SubscriptionStatus.active, amount := 1970,
              billing_cycle := "yearly", current_period_start := 100 * day,
              current_period_end := 100 * day + 365 * day,
              trial_end := 14 * day, updated_at := 100 * day }, none) ∧
    (1970 : Int) = (get_plan_features SubscriptionPlan.starter).price_yearly ∧
    (1970 : Int) ≠ (get_plan_features SubscriptionPlan.enterprise).price_yearly := by
  refine ⟨by decide, rfl, by decide⟩

/-- C4 counterexample: upgrading the starter tenant to the trial plan is not
rejected — the error component is `none` and the stored subscription is
rewritten (plan trial, status active, amount 197 taken from the old starter
plan's monthly price). -/
theorem c4_counterexample :
    (upgrade_subscription svcStarter 2 SubscriptionPlan.trial "monthly"
        (10 * day)).2 =
      (some { user_id := 2, plan := SubscriptionPlan.trial,
              status := SubscriptionStatus.active, amount := 197,
              billing_cycle := "monthly", current_period_start := 10 * day,
              current_period_end := 10 * day + 30 * day, trial_end := 14 * day,
              updated_at := 10 * day }, none) := by
  decide

/-- C4 as amended: `SubscriptionService.upgrade_subscription` performs no
plan-price validation at all — for every tenant with an existing subscription
and every billing cycle, upgrading to the trial plan succeeds, setting
plan = trial, status = active, resetting the period window, and charging the
*previous* plan's price for the requested cycle. -/
theorem c4_amended_upgrade_to_trial_succeeds :
    ∀ (svc : SubscriptionService) (uid : Nat) (cycle : String) (now : Int)
      (sub : Subscription),
      get_subscription_by_user svc uid = some sub →
      (upgrade_subscription svc uid SubscriptionPlan.trial cycle now).2 =
        (some { sub with
                  plan := SubscriptionPlan.trial
                  status := SubscriptionStatus.active
                  amount := if cycle = "yearly" then (get_plan_features sub.plan).price_yearly
                            else (get_plan_features sub.plan).price_monthly
                  billing_cycle := cycle
                  current_period_start := now
                  current_period_end := if cycle = "yearly" then now + 365 * day
                                        else now + 30 * day
                  updated_at := now }, none) := by
  intro svc uid cycle now sub h
  by_cases hc : cycle = "yearly" <;>
    simp [upgrade_subscription, h, calculate_period_end, hc]

/-- Witness for C4's amended statement: the starter tenant "upgraded" to
trial on a yearly cycle gets an active trial subscription priced at the
starter yearly rate. -/
theorem c4_witness :
    (upgrade_subscription svcStarter 2 SubscriptionPlan.trial "yearly"
        (50 * day)).2 =
      (some { subStarter with
                plan := SubscriptionPlan.trial
                status := SubscriptionStatus.active
                amount := if "yearly" = "yearly"
                          then (get_plan_features subStarter.plan).price_yearly
                          else (get_plan_features subStarter.plan).price_monthly
                billing_cycle := "yearly"
                current_period_start := 50 * day
                current_period_end := if "yearly" = "yearly" then 50 * day + 365 * day
                                      else 50 * day + 30 * day
                updated_at := 50 * day }, none) :=
  c4_amended_upgrade_to_trial_succeeds svcStarter 2 "yearly" (50 * day) subStarter rfl

/-- The six feature names the route-level gate is queried with that are not
keys of the plan-feature dictionary. -/
def gated_feature_names : List String :=
  ["website_scraping", "bulk_generation", "youtube", "dms_integration",
   "unlimited_posts", "unlimited_images"]

/-- C10: the service-level gate behind `GET /feature-access/<feature>` is the
uniform lookup `features.get(feature, False)`; since none of the six gated
feature names is a dictionary key, it answers false for them on every plan
and every subscription state, and it disagrees with the `main_complete`
resolution table (an active enterprise tenant gets `youtube` there but not
here). -/
theorem c10_route_gate_uniform_lookup :
    (∀ (svc : SubscriptionService) (uid : Nat) (feature : String) (now : Int)
        (sub : Subscription),
        get_subscription_by_user svc uid = some sub →
        is_active sub now = true →
        route_feature_access svc uid feature now =
          (get_plan_features sub.plan).lookup feature) ∧
    (∀ (plan : SubscriptionPlan), ∀ feature ∈ gated_feature_names,
        (get_plan_features plan).lookup feature = .bool false) ∧
    (∀ (svc : SubscriptionService) (uid : Nat) (now : Int),
        ∀ feature ∈ gated_feature_names,
        route_feature_access svc uid feature now = .bool false) ∧
    ((main_check_feature_access svcEnterprise (some 3) "youtube" 0).truthy = true ∧
      route_feature_access svcEnterprise 3 "youtube" 0 = .bool false) := by
  refine ⟨?_, ?_, ?_, by decide, by decide⟩
  · intro svc uid f now sub h hia
    simp [route_feature_access, service_check_feature_access, h, hia]
  · intro plan f hf
    fin_cases hf <;> rfl
  · intro svc uid now f hf
    cases h : get_subscription_by_user svc uid with
    | none => simp [route_feature_access, service_check_feature_access, h]
    | some sub =>
        by_cases hia : is_active sub now <;>
          fin_cases hf <;>
          simp [route_feature_access, service_check_feature_access, h, hia,
            PlanFeatures.lookup]

/-- Witness for C10: the active enterprise tenant asking the route-level gate
for `dms_integration` is denied, under the uniform-lookup characterization. -/
theorem c10_witness :
    route_feature_access svcEnterprise 3 "dms_integration" 0 = .bool false ∧
    route_feature_access svcEnterprise 3 "dms_integration" 0 =
      (get_plan_features subEnterprise.plan).lookup "dms_integration" := by
  have h := c10_route_gate_uniform_lookup
  exact ⟨h.2.2.1 svcEnterprise 3 0 "dms_integration" (by decide),
    h.1 svcEnterprise 3 "dms_integration" 0 subEnterprise rfl (by decide)⟩

/-! ### Claims about the scraping pipeline -/

/-- Ingestion collaborators where the download of `u1` fails and every saved
record starts out non-primary, as `ImageService.save_image` creates them. -/
def envCex : IngestEnv :=
  { http := fun u => if u = "u1" then .error "timeout" else .ok u
    save_image := fun _ =>
      .ok (some { source_url := "", is_primary := false }, "ok") }

/-- Ingestion collaborators where only the download of `b` fails. -/
def env3 : IngestEnv :=
  { http := fun u => if u = "b" then .error "down" else .ok u
    save_image := fun _ =>
      .ok (some { source_url := "", is_primary := false }, "ok") }

/-- Records produced at enumeration index ≥ 1 are never primary, provided
`save_image` creates its records non-primary (the database default). -/
lemma save_images_loop_no_primary (env : IngestEnv)
    (hsave : ∀ c rec msg, env.save_image c = Except.ok (some rec, msg) →
      rec.is_primary = false) :
    ∀ (urls : List String) (i : Nat), 1 ≤ i →
      ∀ r ∈ (save_images_loop env i urls).2.2, r.is_primary = false := by
  intro urls
  induction urls with
  | nil =>
      intro i hi r hr
      simp [save_images_loop] at hr
  | cons u rest ih =>
      intro i hi r hr
      simp only [save_images_loop] at hr
      split at hr
      · exact ih (i + 1) (by omega) r hr
      · exact ih (i + 1) (by omega) r hr
      · rename_i rec msg heq
        simp only [List.mem_cons] at hr
        rcases hr with rfl | hr
        · have hrec : rec.is_primary = false := by
            split at heq
            · exact absurd heq (by simp)
            · exact hsave _ _ _ heq
          have hi0 : ¬ i = 0 := by omega
          simp [hi0, hrec]
        · exact ih (i + 1) (by omega) r hr

/-- C2 counterexample: over the two image URLs `[u1, u2]` where the first
download fails, one image is saved — the first successfully saved image of
the listing, derived from `u2` — yet no record carries `is_primary = true`,
because the code flags only the image at enumeration index 0. -/
theorem c2_counterexample :
    save_scraped_vehicle_images envCex ["u1", "u2"] =
      (1, ["Image 1 from u1: timeout"],
       [{ source_url := "u2", is_primary := false }]) := by
  decide

/-- C2 as amended: at most 5 image URLs are processed; the primary flag is
tied to enumeration index 0, not to the first successful save — a record can
be primary only if it derives from the listing's first image URL, the
index-0 image is flagged primary whenever its download and save succeed, and
in the 3-URL scenario with the 2nd download failing the result is
`saved_count = 2`, one error string, and the primary flag on the image from
the 1st URL. -/
theorem c2_amended_primary_is_index_zero :
    (∀ (env : IngestEnv) (images : List String),
        save_scraped_vehicle_images env images =
          save_scraped_vehicle_images env (images.take 5)) ∧
    (∀ env : IngestEnv,
        (∀ c rec msg, env.save_image c = Except.ok (some rec, msg) →
          rec.is_primary = false) →
        ∀ (images : List String) (r : ImageRecord),
          r ∈ (save_scraped_vehicle_images env images).2.2 →
          r.is_primary = true → images.head? = some r.source_url) ∧
    (∀ (env : IngestEnv) (u : String) (rest : List String) (c : String)
        (rec : ImageRecord) (msg : String),
        env.http u = .ok c → env.save_image c = .ok (some rec, msg) →
        (save_scraped_vehicle_images env (u :: rest)).2.2 =
          { rec with source_url := u, is_primary := true }
            :: (save_images_loop env 1 (rest.take 4)).2.2) ∧
    save_scraped_vehicle_images env3 ["a", "b", "c"] =
      (2, ["Image 2 from b: down"],
       [{ source_url := "a", is_primary := true },
        { source_url := "c", is_primary := false }]) := by
  refine ⟨?_, ?_, ?_, by decide⟩
  · intro env images
    simp [save_scraped_vehicle_images, List.take_take]
  · intro env hsave images r hr hprim
    cases images with
    | nil => simp [save_scraped_vehicle_images, save_images_loop] at hr
    | cons u rest =>
        have htake : List.take 5 (u :: rest) = u :: List.take 4 rest := rfl
        simp only [save_scraped_vehicle_images, htake, save_images_loop] at hr
        split at hr
        · have := save_images_loop_no_primary env hsave (List.take 4 rest)
            (0 + 1) (by omega) r hr
          simp [this] at hprim
        · have := save_images_loop_no_primary env hsave (List.take 4 rest)
            (0 + 1) (by omega) r hr
          simp [this] at hprim
        · rename_i rec msg heq
          simp only [List.mem_cons] at hr
          rcases hr with rfl | hr
          · simp
          · have := save_images_loop_no_primary env hsave (List.take 4 rest)
              (0 + 1) (by omega) r hr
            simp [this] at hprim
  · intro env u rest c rec msg h1 h2
    have htake : List.take 5 (u :: rest) = u :: List.take 4 rest := rfl
    simp [save_scraped_vehicle_images, htake, save_images_loop, h1, h2]

/-- Witness for C2's amended statement at `env3`: the index-0 record from
`a` heads the committed records with the primary flag, and a primary record
can only derive from the first URL. -/
theorem c2_witness :
    (save_scraped_vehicle_images env3 ["a", "b", "c"]).2.2 =
      { source_url := "a", is_primary := true }
        :: (save_images_loop env3 1 (["b", "c"].take 4)).2.2 ∧
    (["a", "b", "c"] : List String).head? = some "a" := by
  have h := c2_amended_primary_is_index_zero
  refine ⟨h.2.2.1 env3 "a" ["b", "c"] "a"
    { source_url := "", is_primary := false } "ok" rfl rfl, ?_⟩
  have hsave : ∀ c rec msg,
      env3.save_image c = Except.ok (some rec, msg) → rec.is_primary = false := by
    intro c rec msg hh
    injection hh with hh1
    injection hh1 with hh2 hh3
    injection hh2 with hh4
    rw [← hh4]
  exact h.2.1 env3 hsave ["a", "b", "c"]
    { source_url := "a", is_primary := true } (by decide) rfl

/-- A listing block with an accepted vehicle image but no 4-digit year token
in its text. -/
def elemNoYear : Element :=
  { imgs := [{ src := some "http://d.example/lot-photo-1.jpg",
               data_src := none, data_lazy := none, alt := "a nice sedan" }],
    text := "Great deal on a sedan", anchors := [] }

/-- A page whose only matches are under the first selector. -/
def pageNoYear : InventoryPage :=
  { select := fun sel => if sel = ".vehicle-item" then [elemNoYear] else [] }

/-- A page that matches nothing under `.vehicle-item` but matches under the
second selector `.car-item`. -/
def pageSecondSel : InventoryPage :=
  { select := fun sel => if sel = ".car-item" then [elemNoYear] else [] }

/-- The selector loop returns exactly the matches of the first selector that
yields any elements: selectors before it match nothing, later ones are never
consulted. -/
lemma select_elements_first_match (page : InventoryPage) :
    ∀ (l1 : List String) (sel : String) (l2 : List String),
      (∀ s ∈ l1, page.select s = []) → page.select sel ≠ [] →
      select_elements page (l1 ++ sel :: l2) = page.select sel := by
  intro l1
  induction l1 with
  | nil =>
      intro sel l2 _ h2
      cases hsel : page.select sel with
      | nil => exact absurd hsel h2
      | cons a as => simp [select_elements, hsel]
  | cons s ss ih =>
      intro sel l2 h1 h2
      have hs : page.select s = [] := h1 s (List.mem_cons_self s ss)
      simp only [List.cons_append, select_elements, hs, List.isEmpty_nil, if_true]
      exact ih sel l2 (fun t ht => h1 t (List.mem_cons_of_mem s ht)) h2

/-- C7: the listing extractor uses exactly the elements of the first selector
in the fixed ordered list that yields any elements; an element is emitted
only when a year token was found and the accepted image list is non-empty;
with no year token the element is dropped (returning `None`, no error
record); concretely, a block with an accepted image but no year token
contributes zero listings to the page. -/
theorem c7_first_selector_and_gate :
    (∀ (page : InventoryPage) (l1 : List String) (sel : String)
        (l2 : List String),
        vehicle_selectors = l1 ++ sel :: l2 →
        (∀ s ∈ l1, page.select s = []) →
        page.select sel ≠ [] →
        select_elements page vehicle_selectors = page.select sel) ∧
    (∀ (join : String → String → String) (el : Element) (base : String)
        (v : VehicleData),
        extract_vehicle_data join el base = some v →
        v.images ≠ [] ∧ ∃ y, v.year = some y ∧ y ≠ "") ∧
    (∀ (join : String → String → String) (el : Element) (base : String),
        find_year el.text = none → extract_vehicle_data join el base = none) ∧
    (find_year elemNoYear.text = none ∧ elemNoYear.imgs ≠ [] ∧
      scrape_vehicle_listings_parsed (fun _ s => s) pageNoYear
        "http://dealer.example" = []) := by
  refine ⟨?_, ?_, ?_, by decide, by decide, by decide⟩
  · intro page l1 sel l2 heq h1 h2
    rw [heq]
    exact select_elements_first_match page l1 sel l2 h1 h2
  · intro join el base v h
    simp only [extract_vehicle_data] at h
    split at h
    · rename_i hcond
      rw [Bool.and_eq_true] at hcond
      obtain ⟨hy, him⟩ := hcond
      cases h
      constructor
      · simpa using him
      · cases hfy : find_year el.text with
        | none => rw [hfy] at hy; simp at hy
        | some y =>
            rw [hfy] at hy
            exact ⟨y, rfl, by simpa using hy⟩
    · exact absurd h (by simp)
  · intro join el base h
    simp [extract_vehicle_data, h]

/-- Witness for C7: on the page whose first non-empty selector is
`.car-item`, the loop returns exactly that selector's matches. -/
theorem c7_witness :
    select_elements pageSecondSel vehicle_selectors =
      pageSecondSel.select ".car-item" :=
  c7_first_selector_and_gate.1 pageSecondSel [".vehicle-item"] ".car-item"
    [".inventory-item", ".vehicle-card", ".listing-item", "[data-vehicle]",
     ".vehicle"] rfl (by decide) (by decide)

/-- Orchestrator collaborators where platform detection raises and every
listing scrape raises. -/
def opsFail : OrchestratorOps :=
  { detect_website_platform := fun _ => .error "no network"
    find_inventory_pages := fun _ => .ok []
    scrape_vehicle_listings := fun _ => .error "parse failure"
    save_vehicle_images := fun _ => .ok (0, []) }

/-- C8: platform detection maps a fetch failure to `unknown` instead of
raising; a page-level exception becomes one error string tagged with the
failing page URL while the loop still processes the remaining pages; and an
exception escaping the inner handlers maps the whole run to
`(0, 1, [message], 'unknown')`.  The result type is the 4-tuple
`(scraped_count, error_count, errors, platform)` by construction. -/
theorem c8_orchestrator_error_handling :
    (∀ (http : String → Except String String) (url e : String),
        http url = .error e → detect_website_platform http url = "unknown") ∧
    (∀ (ops : OrchestratorOps) (mv : Nat) (u : String) (rest : List String)
        (m : String),
        ops.scrape_vehicle_listings u = .error m →
        page_loop ops mv (u :: rest) =
          ((page_loop ops mv rest).1, (page_loop ops mv rest).2.1 + 1,
           ("Page scraping error for " ++ u ++ ": " ++ m)
             :: (page_loop ops mv rest).2.2)) ∧
    (∀ (ops : OrchestratorOps) (url : String) (mv : Nat) (m : String),
        ops.detect_website_platform url = .error m →
        scrape_dealership_website ops url mv =
          (0, 1, ["Website scraping error: " ++ m], "unknown")) := by
  refine ⟨?_, ?_, ?_⟩
  · intro http url e h
    simp [detect_website_platform, h]
  · intro ops mv u rest m h
    simp [page_loop, h, Nat.add_comm]
  · intro ops url mv m h
    simp [scrape_dealership_website, h]

/-- Witness for C8: with the failing collaborators, a run maps to the
top-level error 4-tuple; detection alone maps a refused fetch to `unknown`;
and a failing page adds one tagged error while the loop result for the
remaining pages is preserved. -/
theorem c8_witness :
    scrape_dealership_website opsFail "http://dealer.example" 50 =
      (0, 1, ["Website scraping error: no network"], "unknown") ∧
    detect_website_platform (fun _ => Except.error "refused")
      "http://dealer.example" = "unknown" ∧
    page_loop opsFail 50 ["p1"] =
      ((page_loop opsFail 50 []).1, (page_loop opsFail 50 []).2.1 + 1,
       ("Page scraping error for " ++ "p1" ++ ": " ++ "parse failure")
         :: (page_loop opsFail 50 []).2.2) := by
  have h := c8_orchestrator_error_handling
  exact ⟨h.2.2 opsFail "http://dealer.example" 50 "no network" rfl,
    h.1 (fun _ => Except.error "refused") "http://dealer.example" "refused" rfl,
    h.2.1 opsFail 50 "p1" [] "parse failure" rfl⟩
